import Mathlib

/-
Shallow embedding of the reconciliation logic of src/src/App.js.

The component keeps two pieces of store state:
  - images        : the ordered result list (success entries with a url,
                    failure entries with a message), field name from the source;
  - loadingImages : a map from request id to the submission timestamp,
                    modelled as an association list.

The event handlers (ws.onmessage, the poll tick body of checkStaleRequests,
the already_sent fetch continuation, requestImageGeneration) are embedded as
pure functions from the current state and the inbound data to the new state
together with the ordered list of external actions the handler performs
(sends, scheduled closes, fetches, alerts).  JSON.parse failure is modelled
by an Option: the source wraps the whole handler in try/catch and a parse
failure lands in the catch block, which only logs.
-/

namespace WsApp

/-- A ResultEntry of the result list: the source appends either
an object with fields id and url (success) or an object with fields
id, error = true and message (failure). -/
inductive ImageEntry
  | success (id : String) (url : String)
  | failure (id : String) (message : String)
deriving DecidableEq, Repr

/-- The id field of a result entry. -/
def ImageEntry.id : ImageEntry → String
  | .success i _ => i
  | .failure i _ => i

/-- The loadingImages object: request id mapped to its Date.now timestamp. -/
abbrev LoadingMap := List (String × Int)

/-- The store: the images result list and the loadingImages map. -/
structure AppState where
  images : List ImageEntry
  loadingImages : LoadingMap
deriving DecidableEq, Repr

/-- JavaScript truthiness of an optional string field: an absent field
(undefined) and the empty string are falsy, every other string is truthy. -/
def truthy : Option String → Bool
  | none => false
  | some s => s != ""

/-- JavaScript evaluation of v or-else d on an optional string field,
as in data.message or a default: absent and empty strings fall back to d. -/
def orDefault (v : Option String) (d : String) : String :=
  match v with
  | none => d
  | some s => if s == "" then d else s

/-- The upsert pattern used at every result installation site in the source:
prev.filter removing any entry with the same id, then the new entry appended. -/
def upsertResult (images : List ImageEntry) (e : ImageEntry) : List ImageEntry :=
  images.filter (fun img => img.id != e.id) ++ [e]

/-- The removal pattern used at every loading-state deletion site:
a copy of the object with the key deleted. -/
def removeLoading (m : LoadingMap) (k : String) : LoadingMap :=
  m.filter (fun p => p.1 != k)

/-- The insertion performed at submission: spread of the old object with
the new key bound to the timestamp (replacing the value when the key
already exists, appending otherwise). -/
def insertLoading (m : LoadingMap) (k : String) (t : Int) : LoadingMap :=
  if m.any (fun p => p.1 == k) then m.map (fun p => if p.1 == k then (k, t) else p)
  else m ++ [(k, t)]

/-- An outbound control message on the push channel, JSON-encoded by the
source: the ready declaration and the acknowledgment with its status field. -/
inductive OutMsg
  | ready (request_id : String)
  | acknowledgment (request_id : String) (status : String)
deriving DecidableEq, Repr

/-- An external action performed by a handler, recorded in source order.
applyResult marks the commit point at which the handler installs the entry
into images and deletes the request from loadingImages (the two setState
calls).  scheduleClose records a setTimeout whose callback closes the
socket after delayMs, with the given close code and reason, guarded by a
readyState check when onlyIfOpen is true. -/
inductive Action
  | sendRaw (text : String)
  | sendJson (msg : OutMsg)
  | applyResult (entry : ImageEntry)
  | fetchStatus (request_id : String)
  | scheduleClose (delayMs : Nat) (code : Option Nat) (reason : Option String)
      (onlyIfOpen : Bool)
  | closeNow
  | alert (text : String)
  | openWebSocket (request_id : String)
deriving DecidableEq, Repr

/-- The fields of a parsed inbound push-channel JSON message that the
handler reads; none models an absent (undefined) field. -/
structure JsonMsg where
  image_url : Option String
  status : Option String
  message : Option String
deriving DecidableEq, Repr

/-- Inbound WebSocket event data: its raw text together with the outcome of
JSON.parse on it (none when parsing throws, which the catch absorbs). -/
structure EventData where
  text : String
  parsed : Option JsonMsg
deriving DecidableEq, Repr

/-- The ws.onmessage handler of setupWebSocket, as a pure function from the
store and the event data to the new store and the ordered action list.
Control flow follows the source: the raw heartbeat check first, then
JSON.parse, then the image_url branch, the already_sent branch, the error
branch, and silently nothing for any other shape. -/
def onmessage (requestId : String) (st : AppState) (d : EventData) :
    AppState × List Action :=
  if d.text == "pong" || d.text == "server_ping" then
    (st, [Action.sendRaw "pong"])
  else
    match d.parsed with
    | none => (st, [])
    | some data =>
      if truthy data.image_url then
        ({ images := upsertResult st.images
             (ImageEntry.success requestId (data.image_url.getD "")),
           loadingImages := removeLoading st.loadingImages requestId },
         [Action.applyResult (ImageEntry.success requestId (data.image_url.getD "")),
          Action.sendJson (OutMsg.acknowledgment requestId "received"),
          Action.scheduleClose 500 (some 1000) (some "Image received successfully") true])
      else if data.status == some "already_sent" then
        (st, [Action.fetchStatus requestId, Action.closeNow])
      else if data.status == some "error" then
        ({ images := upsertResult st.images
             (ImageEntry.failure requestId
               (orDefault data.message "An error occurred during image generation")),
           loadingImages := removeLoading st.loadingImages requestId },
         [Action.applyResult
            (ImageEntry.failure requestId
              (orDefault data.message "An error occurred during image generation")),
          Action.sendJson (OutMsg.acknowledgment requestId "error_received"),
          Action.scheduleClose 200 none none true])
      else (st, [])

/-- The body of a pull-channel status response as the handlers read it. -/
structure StatusData where
  status : Option String
  result : Option String
  error : Option String
deriving DecidableEq, Repr

/-- Outcome of one fetch against the pull channel as seen by the poll loop:
a transport failure (the awaited fetch or json call throws, absorbed by the
catch), or an HTTP response with its ok flag and parsed body. -/
inductive FetchOutcome
  | transportError
  | httpResponse (ok : Bool) (body : StatusData)
deriving DecidableEq, Repr

/-- The per-request response handling inside checkStaleRequests: completed
with a truthy result installs the success entry and deletes the loading
entry; error installs the failure entry (message data.error or the default)
and deletes the loading entry; processing and every other shape change
nothing; a non-ok response and a transport error change nothing. -/
def pollApply (reqId : String) (st : AppState) (o : FetchOutcome) : AppState :=
  match o with
  | .transportError => st
  | .httpResponse ok data =>
    if ok then
      if data.status == some "completed" && truthy data.result then
        { images := upsertResult st.images
            (ImageEntry.success reqId (data.result.getD "")),
          loadingImages := removeLoading st.loadingImages reqId }
      else if data.status == some "error" then
        { images := upsertResult st.images
            (ImageEntry.failure reqId (orDefault data.error "Error generating image")),
          loadingImages := removeLoading st.loadingImages reqId }
      else st
    else st

/-- The stale selection of a poll tick: the ids of the loadingImages entries
whose age at the tick exceeds 12000 milliseconds. -/
def staleRequestIds (loadingImages : LoadingMap) (now : Int) : List String :=
  (loadingImages.filter (fun p => decide (now - p.2 > 12000))).map Prod.fst

/-- One whole poll tick: compute the stale ids from the current store, then
apply the pull-channel outcome for each in turn (responses gives the outcome
the fetch for each id produced). -/
def checkStaleRequests (st : AppState) (now : Int)
    (responses : String → FetchOutcome) : AppState :=
  (staleRequestIds st.loadingImages now).foldl
    (fun s reqId => pollApply reqId s (responses reqId)) st

/-- The fetch continuation of the already_sent branch: the then-chain parses
the body (none when the fetch or the parse rejects, absorbed by the catch)
and only a completed status with a truthy result installs the success entry
and deletes the loading entry; every other response changes nothing. -/
def applyAlreadySentStatus (requestId : String) (st : AppState)
    (o : Option StatusData) : AppState :=
  match o with
  | none => st
  | some statusData =>
    if statusData.status == some "completed" && truthy statusData.result then
      { images := upsertResult st.images
          (ImageEntry.success requestId (statusData.result.getD "")),
        loadingImages := removeLoading st.loadingImages requestId }
    else st

/-- Outcome of the submission POST as requestImageGeneration sees it: a
transport failure (the fetch or the response.json call rejects, both caught
by the same catch block), or an HTTP response with its ok flag and the
request_id of the parsed body. -/
inductive SubmitOutcome
  | transportError
  | httpResponse (ok : Bool) (request_id : String)
deriving DecidableEq, Repr

/-- True exactly when the submission fails: a transport error or a non-ok
response (the source throws on a non-ok response into its own catch). -/
def submitFailed : SubmitOutcome → Bool
  | .transportError => true
  | .httpResponse ok _ => !ok

/-- requestImageGeneration: on failure the catch alerts the user and touches
nothing; on success the request id is inserted into loadingImages with the
current timestamp and the WebSocket session for it is opened. -/
def requestImageGeneration (st : AppState) (now : Int) (o : SubmitOutcome) :
    AppState × List Action :=
  match o with
  | .transportError =>
      (st, [Action.alert "Failed to request image generation. Please try again."])
  | .httpResponse ok request_id =>
      if ok then
        ({ st with loadingImages := insertLoading st.loadingImages request_id now },
         [Action.openWebSocket request_id])
      else
        (st, [Action.alert "Failed to request image generation. Please try again."])

/-- A result delivered for a job, abstracting over the delivery channel:
a success with its url payload or a failure with its message. -/
inductive JobResult
  | success (url : String)
  | failure (message : String)
deriving DecidableEq, Repr

/-- The push-channel message that carries a given result: the payload shape
with an image_url field for a success, the error shape with a message field
for a failure (the raw text is some JSON body, not a heartbeat). -/
def resultMsg : JobResult → EventData
  | .success url => ⟨"j", some ⟨some url, none, none⟩⟩
  | .failure m => ⟨"j", some ⟨none, some "error", some m⟩⟩

/-- The result entry the handler installs for a given delivered result. -/
def entryOf (reqId : String) : JobResult → ImageEntry
  | .success url => ImageEntry.success reqId url
  | .failure m =>
      ImageEntry.failure reqId
        (orDefault (some m) "An error occurred during image generation")

/-- The payload of a success must be truthy for the handler to take the
payload branch; a failure message may be anything. -/
def resultTruthy : JobResult → Bool
  | .success url => url != ""
  | .failure _ => true

/-- The result-list invariant: at most one entry per job id. -/
def atMostOneResult (images : List ImageEntry) : Prop :=
  ∀ j : String, (images.filter (fun e => e.id == j)).length ≤ 1

/-- After an upsert, the entries carrying the upserted id form exactly the
inserted entry. -/
lemma filter_upsertResult (l : List ImageEntry) (e : ImageEntry) :
    (upsertResult l e).filter (fun x => x.id == e.id) = [e] := by
  unfold upsertResult
  rw [List.filter_append, List.filter_filter]
  simp

/-- Upserting preserves the at-most-one-entry-per-id invariant. -/
lemma upsertResult_preserves (l : List ImageEntry) (e : ImageEntry)
    (h : atMostOneResult l) : atMostOneResult (upsertResult l e) := by
  intro j
  by_cases hj : e.id = j
  · subst hj
    rw [filter_upsertResult]
    simp
  · unfold upsertResult
    rw [List.filter_append]
    have h1 : List.filter (fun x => x.id == j) [e] = [] := by
      simp [hj]
    rw [h1, List.append_nil]
    have h2 : (l.filter (fun img => img.id != e.id)).Sublist l := List.filter_sublist l
    have h3 := (h2.filter (fun x => x.id == j)).length_le
    exact le_trans h3 (h j)

/-- Deleting an absent key from the loading map changes nothing. -/
lemma removeLoading_of_absent (m : LoadingMap) (k : String)
    (h : ∀ p ∈ m, p.1 ≠ k) : removeLoading m k = m := by
  unfold removeLoading
  apply List.filter_eq_self.mpr
  intro p hp
  simpa using h p hp

/-- Membership in the stale selection of a tick. -/
lemma mem_staleRequestIds (loading : LoadingMap) (now : Int) (reqId : String) :
    reqId ∈ staleRequestIds loading now ↔
      ∃ ts : Int, (reqId, ts) ∈ loading ∧ now - ts > 12000 := by
  unfold staleRequestIds
  simp only [List.mem_map, List.mem_filter, decide_eq_true_eq]
  constructor
  · rintro ⟨⟨a, b⟩, ⟨hmem, hgt⟩, heq⟩
    refine ⟨b, ?_, hgt⟩
    have ha : a = reqId := heq
    subst ha
    exact hmem
  · rintro ⟨ts, hmem, hgt⟩
    exact ⟨(reqId, ts), ⟨hmem, hgt⟩, rfl⟩

/-- A fold over a list preserves any property its step preserves. -/
lemma foldl_preserve {α β : Type} (P : α → Prop) (f : α → β → α)
    (hf : ∀ a b, P a → P (f a b)) :
    ∀ (l : List β) (a : α), P a → P (l.foldl f a)
  | [], _, h => h
  | b :: l, a, h => foldl_preserve P f hf l (f a b) (hf a b h)

/-- The message handler preserves the at-most-one-entry-per-id invariant. -/
lemma onmessage_preserves (reqId : String) (st : AppState) (d : EventData)
    (h : atMostOneResult st.images) :
    atMostOneResult ((onmessage reqId st d).1).images := by
  unfold onmessage
  split
  · exact h
  · split
    · exact h
    · split
      · exact upsertResult_preserves _ _ h
      · split
        · exact h
        · split
          · exact upsertResult_preserves _ _ h
          · exact h

/-- The poll response handler preserves the invariant. -/
lemma pollApply_preserves (reqId : String) (st : AppState) (o : FetchOutcome)
    (h : atMostOneResult st.images) :
    atMostOneResult (pollApply reqId st o).images := by
  unfold pollApply
  split
  · exact h
  · split
    · split
      · exact upsertResult_preserves _ _ h
      · split
        · exact upsertResult_preserves _ _ h
        · exact h
    · exact h

/-- The already_sent fetch continuation preserves the invariant. -/
lemma applyAlreadySentStatus_preserves (reqId : String) (st : AppState)
    (o : Option StatusData) (h : atMostOneResult st.images) :
    atMostOneResult (applyAlreadySentStatus reqId st o).images := by
  unfold applyAlreadySentStatus
  split
  · exact h
  · split
    · exact upsertResult_preserves _ _ h
    · exact h

/-- Delivering a result through the push handler installs the matching
entry by upsert and deletes the loading entry. -/
lemma onmessage_resultMsg (reqId : String) (st : AppState) (r : JobResult)
    (h : resultTruthy r = true) :
    (onmessage reqId st (resultMsg r)).1 =
      { images := upsertResult st.images (entryOf reqId r),
        loadingImages := removeLoading st.loadingImages reqId } := by
  cases r with
  | success url =>
      have h4 : truthy (some url) = true := by
        simpa [resultTruthy, truthy] using h
      unfold onmessage resultMsg
      simp [h4, entryOf]
  | failure m =>
      unfold onmessage resultMsg
      simp [truthy, entryOf]

/-- C1 counterexample: with no LoadingEntry for job a (it was already
resolved with a failure entry), a push-channel payload message for a is not
a no-op: the handler replaces the failure entry with a success entry, so
the store changes. -/
theorem C1_counterexample :
    (onmessage "a" ⟨[ImageEntry.failure "a" "m"], []⟩
        ⟨"t", some ⟨some "u", none, none⟩⟩).1 ≠
      ⟨[ImageEntry.failure "a" "m"], []⟩ := by decide

/-- C1 amended: when a job has no LoadingEntry, applying a result for it
leaves the loading set unchanged (deleting an absent key is a no-op) and a
poll tick never selects it, but the push handlers perform no
already-resolved check: a payload message still upserts a success entry
into the result list, and an error message still upserts a failure entry
into the result list. -/
theorem C1_amended (reqId : String) (st : AppState)
    (h : ∀ p ∈ st.loadingImages, p.1 ≠ reqId) :
    (∀ d : EventData, ((onmessage reqId st d).1).loadingImages = st.loadingImages) ∧
    (∀ (d : EventData) (j : JsonMsg), d.text ≠ "pong" → d.text ≠ "server_ping" →
      d.parsed = some j → truthy j.image_url = true →
      ((onmessage reqId st d).1).images =
        upsertResult st.images (ImageEntry.success reqId (j.image_url.getD ""))) ∧
    (∀ (d : EventData) (j : JsonMsg), d.text ≠ "pong" → d.text ≠ "server_ping" →
      d.parsed = some j → truthy j.image_url = false → j.status = some "error" →
      ((onmessage reqId st d).1).images =
        upsertResult st.images
          (ImageEntry.failure reqId
            (orDefault j.message "An error occurred during image generation"))) ∧
    (∀ now : Int, reqId ∉ staleRequestIds st.loadingImages now) := by
  have hrm : removeLoading st.loadingImages reqId = st.loadingImages :=
    removeLoading_of_absent _ _ h
  refine ⟨?_, ?_, ?_, ?_⟩
  · intro d
    unfold onmessage
    split
    · rfl
    · split
      · rfl
      · split
        · exact hrm
        · split
          · rfl
          · split
            · exact hrm
            · rfl
  · intro d j h1 h2 h3 h4
    unfold onmessage
    rw [h3]
    simp [h1, h2, h4]
  · intro d j h1 h2 h3 h4 h5
    unfold onmessage
    rw [h3]
    simp [h1, h2, h4, h5]
  · intro now hmem
    rcases (mem_staleRequestIds _ _ _).mp hmem with ⟨ts, hts, _⟩
    exact h (reqId, ts) hts rfl

/-- C1 witness: job a has no LoadingEntry; a push payload for a upserts a
success entry over its existing failure entry, and a push error message for
a upserts a failure entry over its existing success entry. -/
theorem C1_witness :
    ((onmessage "a" ⟨[ImageEntry.failure "a" "m"], []⟩
        ⟨"t", some ⟨some "u", none, none⟩⟩).1).images =
      upsertResult [ImageEntry.failure "a" "m"] (ImageEntry.success "a" "u") ∧
    ((onmessage "a" ⟨[ImageEntry.success "a" "u"], []⟩
        ⟨"t", some ⟨none, some "error", some "boom"⟩⟩).1).images =
      upsertResult [ImageEntry.success "a" "u"] (ImageEntry.failure "a" "boom") :=
  ⟨(C1_amended "a" ⟨[ImageEntry.failure "a" "m"], []⟩ (by simp)).2.1
      ⟨"t", some ⟨some "u", none, none⟩⟩ ⟨some "u", none, none⟩
      (by decide) (by decide) rfl (by decide),
   (C1_amended "a" ⟨[ImageEntry.success "a" "u"], []⟩ (by simp)).2.2.1
      ⟨"t", some ⟨none, some "error", some "boom"⟩⟩ ⟨none, some "error", some "boom"⟩
      (by decide) (by decide) rfl (by decide) rfl⟩

/-- C2 counterexample: job a is loading; the push channel delivers a
success with url u1, then an error with message boom.  The final result
list holds the second result, the failure, not the first as the claim
states. -/
theorem C2_counterexample :
    ((onmessage "a"
        (onmessage "a" ⟨[], [("a", 0)]⟩ ⟨"t", some ⟨some "u1", none, none⟩⟩).1
        ⟨"t", some ⟨none, some "error", some "boom"⟩⟩).1).images =
      [ImageEntry.failure "a" "boom"] ∧
    ImageEntry.failure "a" "boom" ≠ ImageEntry.success "a" "u1" := by decide

/-- C2 amended: applying two results r1 then r2 for the same job through
the push handler leaves exactly one ResultEntry for that id, and that entry
is the one of r2, the last call (last writer wins, because each
installation first removes any existing entry with the same id and no
already-resolved check is made). -/
theorem C2_amended (reqId : String) (st : AppState) (r1 r2 : JobResult)
    (h1 : resultTruthy r1 = true) (h2 : resultTruthy r2 = true) :
    (((onmessage reqId (onmessage reqId st (resultMsg r1)).1
        (resultMsg r2)).1).images.filter (fun e => e.id == reqId)) =
      [entryOf reqId r2] := by
  rw [onmessage_resultMsg reqId st r1 h1,
      onmessage_resultMsg reqId _ r2 h2]
  have hid : (entryOf reqId r2).id = reqId := by
    cases r2 <;> rfl
  conv_lhs => rw [show (fun e : ImageEntry => e.id == reqId) =
    (fun e : ImageEntry => e.id == (entryOf reqId r2).id) from by rw [hid]]
  exact filter_upsertResult _ _

/-- C2 witness: success then failure for job a leaves exactly the failure
entry. -/
theorem C2_witness :
    (((onmessage "a"
        (onmessage "a" ⟨[], [("a", 0)]⟩ (resultMsg (JobResult.success "u1"))).1
        (resultMsg (JobResult.failure "boom"))).1).images.filter
      (fun e => e.id == "a")) = [entryOf "a" (JobResult.failure "boom")] :=
  C2_amended "a" ⟨[], [("a", 0)]⟩ (JobResult.success "u1")
    (JobResult.failure "boom") (by decide) (by decide)

/-- C3: every operation of the component (push message handling, a poll
response, the already_sent handoff continuation, submission, and a whole
poll tick) preserves the invariant that the result list holds at most one
entry per job id. -/
theorem C3_at_most_one_result (st : AppState) (h : atMostOneResult st.images) :
    (∀ reqId d, atMostOneResult ((onmessage reqId st d).1).images) ∧
    (∀ reqId o, atMostOneResult (pollApply reqId st o).images) ∧
    (∀ reqId o, atMostOneResult (applyAlreadySentStatus reqId st o).images) ∧
    (∀ now o, atMostOneResult ((requestImageGeneration st now o).1).images) ∧
    (∀ now responses, atMostOneResult (checkStaleRequests st now responses).images) := by
  refine ⟨fun reqId d => onmessage_preserves reqId st d h,
          fun reqId o => pollApply_preserves reqId st o h,
          fun reqId o => applyAlreadySentStatus_preserves reqId st o h,
          ?_, ?_⟩
  · intro now o
    cases o with
    | transportError => exact h
    | httpResponse ok rid =>
        unfold requestImageGeneration
        cases ok <;> exact h
  · intro now responses
    unfold checkStaleRequests
    exact foldl_preserve (fun s => atMostOneResult s.images) _
      (fun a b ha => pollApply_preserves b a (responses b) ha) _ st h

/-- C3 witness: starting from an empty store, handling a push payload for
job a keeps the at-most-one-entry invariant. -/
theorem C3_witness :
    atMostOneResult ((onmessage "a" ⟨[], [("a", 0)]⟩
        ⟨"t", some ⟨some "u", none, none⟩⟩).1).images :=
  (C3_at_most_one_result ⟨[], [("a", 0)]⟩ (fun _ => by simp)).1 "a"
    ⟨"t", some ⟨some "u", none, none⟩⟩

/-- C4 counterexample: job a is loading; the already_sent handoff fetch
returns an error status with message boom.  The claim says a Failure entry
is installed and the LoadingEntry removed; the code leaves the store
exactly unchanged, because the then-chain of the already_sent branch only
handles a completed response. -/
theorem C4_counterexample :
    applyAlreadySentStatus "a" ⟨[], [("a", 0)]⟩
        (some ⟨some "error", none, some "boom"⟩) = ⟨[], [("a", 0)]⟩ := by decide

/-- C4 amended: on an already_sent notice the session issues exactly one
pull-channel status query and then closes, with the store untouched at that
point; the continuation installs a Success entry and removes the
LoadingEntry only for a completed response with a truthy result; every
other response, including an error response, leaves the store unchanged
(unlike the Poller, which also handles error responses). -/
theorem C4_amended (reqId : String) (st : AppState) (d : EventData) (j : JsonMsg)
    (h1 : d.text ≠ "pong") (h2 : d.text ≠ "server_ping") (h3 : d.parsed = some j)
    (h4 : truthy j.image_url = false) (h5 : j.status = some "already_sent") :
    onmessage reqId st d = (st, [Action.fetchStatus reqId, Action.closeNow]) ∧
    (∀ res : String, res ≠ "" →
      applyAlreadySentStatus reqId st (some ⟨some "completed", some res, none⟩) =
        { images := upsertResult st.images (ImageEntry.success reqId res),
          loadingImages := removeLoading st.loadingImages reqId }) ∧
    (∀ sd : StatusData, (sd.status == some "completed" && truthy sd.result) = false →
      applyAlreadySentStatus reqId st (some sd) = st) ∧
    applyAlreadySentStatus reqId st none = st := by
  refine ⟨?_, ?_, ?_, rfl⟩
  · unfold onmessage
    rw [h3]
    simp [h1, h2, h4, h5]
  · intro res hres
    unfold applyAlreadySentStatus
    simp [truthy, hres]
  · intro sd hsd
    unfold applyAlreadySentStatus
    simp [hsd]

/-- C4 witness: an already_sent notice for job a issues one status fetch
and a close, leaving the store untouched. -/
theorem C4_witness :
    onmessage "a" ⟨[], [("a", 0)]⟩ ⟨"t", some ⟨none, some "already_sent", none⟩⟩ =
      (⟨[], [("a", 0)]⟩, [Action.fetchStatus "a", Action.closeNow]) :=
  (C4_amended "a" ⟨[], [("a", 0)]⟩ ⟨"t", some ⟨none, some "already_sent", none⟩⟩
    ⟨none, some "already_sent", none⟩ (by decide) (by decide) rfl (by decide) rfl).1

/-- C5: a poll tick at time now selects exactly the loading entries with
now minus startedAt strictly greater than 12000 milliseconds; a job at or
below the threshold is never selected, and once strictly older it stays
selected at every later tick while its entry remains. -/
theorem C5_staleness (loading : LoadingMap) (now : Int) (reqId : String) :
    (reqId ∈ staleRequestIds loading now ↔
      ∃ ts : Int, (reqId, ts) ∈ loading ∧ now - ts > 12000) ∧
    (∀ now2 : Int, now ≤ now2 → reqId ∈ staleRequestIds loading now →
      reqId ∈ staleRequestIds loading now2) := by
  refine ⟨mem_staleRequestIds loading now reqId, ?_⟩
  intro now2 hle hmem
  rcases (mem_staleRequestIds loading now reqId).mp hmem with ⟨ts, hts, hgt⟩
  exact (mem_staleRequestIds loading now2 reqId).mpr ⟨ts, hts, by omega⟩

/-- C5 witness: a job that started at 0 is selected by a tick at 20000. -/
theorem C5_witness : "a" ∈ staleRequestIds [("a", 0)] 20000 :=
  (C5_staleness [("a", 0)] 20000 "a").1.mpr ⟨0, by decide, by decide⟩

/-- C6: on a push payload message the handler commits the Success entry and
deletes the LoadingEntry, then sends the acknowledgment control message
with type acknowledgment, the request id and status received, then
schedules a close after a 500 millisecond grace delay with the normal
closure code 1000, guarded by a readyState-is-open check — in that order. -/
theorem C6_payload_sequence (reqId : String) (st : AppState) (d : EventData)
    (j : JsonMsg) (h1 : d.text ≠ "pong") (h2 : d.text ≠ "server_ping")
    (h3 : d.parsed = some j) (h4 : truthy j.image_url = true) :
    onmessage reqId st d =
      ({ images := upsertResult st.images
           (ImageEntry.success reqId (j.image_url.getD "")),
         loadingImages := removeLoading st.loadingImages reqId },
       [Action.applyResult (ImageEntry.success reqId (j.image_url.getD "")),
        Action.sendJson (OutMsg.acknowledgment reqId "received"),
        Action.scheduleClose 500 (some 1000) (some "Image received successfully") true]) := by
  unfold onmessage
  rw [h3]
  simp [h1, h2, h4]

/-- C6 witness: a payload with url u for loading job a installs the success
entry, clears the loading entry, acknowledges, and schedules the guarded
1000-coded close. -/
theorem C6_witness :
    onmessage "a" ⟨[], [("a", 0)]⟩ ⟨"t", some ⟨some "u", none, none⟩⟩ =
      (⟨[ImageEntry.success "a" "u"], []⟩,
       [Action.applyResult (ImageEntry.success "a" "u"),
        Action.sendJson (OutMsg.acknowledgment "a" "received"),
        Action.scheduleClose 500 (some 1000) (some "Image received successfully") true]) :=
  C6_payload_sequence "a" ⟨[], [("a", 0)]⟩ ⟨"t", some ⟨some "u", none, none⟩⟩
    ⟨some "u", none, none⟩ (by decide) (by decide) rfl (by decide)

/-- C7: an inbound message that is not a recognized raw heartbeat and fails
JSON decoding is absorbed: the handler performs no action at all (so it
neither closes the connection nor throws past the catch) and the store is
unchanged. -/
theorem C7_decode_failure (reqId : String) (st : AppState) (d : EventData)
    (h1 : d.text ≠ "pong") (h2 : d.text ≠ "server_ping") (h3 : d.parsed = none) :
    onmessage reqId st d = (st, []) := by
  unfold onmessage
  rw [h3]
  simp [h1, h2]

/-- C7 witness: an undecodable text changes nothing and emits no action. -/
theorem C7_witness :
    onmessage "a" ⟨[ImageEntry.success "b" "u"], [("a", 0)]⟩ ⟨"not json", none⟩ =
      (⟨[ImageEntry.success "b" "u"], [("a", 0)]⟩, []) :=
  C7_decode_failure "a" ⟨[ImageEntry.success "b" "u"], [("a", 0)]⟩
    ⟨"not json", none⟩ (by decide) (by decide) rfl

/-- C8: when the submission request fails (transport error or non-ok
response), the user gets the blocking alert and nothing else happens: the
store is returned unchanged, so no LoadingEntry is inserted, and no
WebSocket session is opened. -/
theorem C8_submit_failure (st : AppState) (now : Int) (o : SubmitOutcome)
    (h : submitFailed o = true) :
    requestImageGeneration st now o =
      (st, [Action.alert "Failed to request image generation. Please try again."]) := by
  cases o with
  | transportError => rfl
  | httpResponse ok rid =>
      simp only [submitFailed, Bool.not_eq_true'] at h
      unfold requestImageGeneration
      simp [h]

/-- C8 witness: a non-ok response leaves the store as it was and only
alerts. -/
theorem C8_witness :
    requestImageGeneration ⟨[], []⟩ 5 (SubmitOutcome.httpResponse false "r") =
      (⟨[], []⟩, [Action.alert "Failed to request image generation. Please try again."]) :=
  C8_submit_failure ⟨[], []⟩ 5 (SubmitOutcome.httpResponse false "r") (by decide)

/-- C9: a raw heartbeat text on the push channel is answered by sending the
raw string pong back, with no other action and no store change. -/
theorem C9_heartbeat (reqId : String) (st : AppState) (d : EventData)
    (h : d.text = "pong" ∨ d.text = "server_ping") :
    onmessage reqId st d = (st, [Action.sendRaw "pong"]) := by
  unfold onmessage
  rcases h with h | h <;> simp [h]

/-- C9 witness: the server_ping text gets a pong and nothing else. -/
theorem C9_witness :
    onmessage "a" ⟨[], [("a", 0)]⟩ ⟨"server_ping", none⟩ =
      (⟨[], [("a", 0)]⟩, [Action.sendRaw "pong"]) :=
  C9_heartbeat "a" ⟨[], [("a", 0)]⟩ ⟨"server_ping", none⟩ (Or.inr rfl)

/-- C10: a pull-channel response with status completed but a missing or
empty result field is treated neither as a success nor as an error: both
the poll path and the already_sent continuation leave the store exactly
unchanged, so the job keeps its LoadingEntry and stays eligible for later
ticks. -/
theorem C10_completed_without_result (reqId : String) (st : AppState)
    (sd : StatusData) (hc : sd.status = some "completed")
    (hr : truthy sd.result = false) :
    pollApply reqId st (FetchOutcome.httpResponse true sd) = st ∧
    applyAlreadySentStatus reqId st (some sd) = st := by
  constructor
  · unfold pollApply
    simp [hc, hr]
  · unfold applyAlreadySentStatus
    simp [hc, hr]

/-- C10 witness: a completed response with no result leaves the loading
store untouched on both paths. -/
theorem C10_witness :
    pollApply "a" ⟨[], [("a", 0)]⟩
        (FetchOutcome.httpResponse true ⟨some "completed", none, none⟩) =
      ⟨[], [("a", 0)]⟩ ∧
    applyAlreadySentStatus "a" ⟨[], [("a", 0)]⟩
        (some ⟨some "completed", none, none⟩) = ⟨[], [("a", 0)]⟩ :=
  C10_completed_without_result "a" ⟨[], [("a", 0)]⟩
    ⟨some "completed", none, none⟩ rfl (by decide)

end WsApp
